import Mathlib

/-!
Verification of the markup parsing, emotion normalization, text segmentation
and dispatch core of the IndexTTS2 multi-character long-text generator.

The definitions below are a shallow embedding of
`multi_person_support/scripts/multi_character_emotion_generator.py` and
`multi_person_support/scripts/long_text_emotion_generator.py`.
Text is modelled as `List Char` (Python `str` indexing is by code point, which
matches `List Char` length and slicing); Python floats are modelled as `ℚ`
(all constants appearing in the scripts are exactly representable and the
claims only exercise exact decimal arithmetic).  Python regular-expression
scanning (`re.finditer`) is modelled by an explicit leftmost, non-overlapping
scanner.  `\w` is modelled as ASCII alphanumeric or underscore (the Python
default is the Unicode word class; the scripts and claims only exercise ASCII
identifiers).
-/

namespace IndexTTS

/-! ### Rational helpers

Core `Rat.add`/`Rat.mul` are `@[irreducible]`, so the embedding computes with
`mkRat` and `if`-based min/max; the bridge lemmas `qmin_eq_min`,
`qmax_eq_max` and `qmul_eq_mul` relate them to the Mathlib operations. -/

/-- `min` on rationals, written so that it reduces definitionally. -/
def qmin (a b : ℚ) : ℚ := if a ≤ b then a else b

/-- `max` on rationals, written so that it reduces definitionally. -/
def qmax (a b : ℚ) : ℚ := if a ≤ b then b else a

/-- Multiplication on rationals, written so that it reduces definitionally. -/
def qmul (a b : ℚ) : ℚ := mkRat (a.num * b.num) (a.den * b.den)

/-- `max(0.0, min(1.0, x))`, the clamping used throughout both scripts. -/
def clamp01 (x : ℚ) : ℚ := qmax 0 (qmin 1 x)

/-! ### Character-list text helpers -/

/-- Python `str.strip()` (restricted to the ASCII whitespace that
`Char.isWhitespace` recognises). -/
def trimChars (cs : List Char) : List Char :=
  ((cs.dropWhile Char.isWhitespace).reverse.dropWhile Char.isWhitespace).reverse

/-- Python `str.lower()` (ASCII; `Char.toLower` is the identity on everything
else, as is Python `lower` on the CJK characters used by the scripts). -/
def toLowerChars (cs : List Char) : List Char := cs.map Char.toLower

/-- Python `text.split('\n')`: every newline separates two (possibly empty)
lines. -/
def splitNL : List Char → List (List Char)
  | [] => [[]]
  | c :: cs =>
    if c = '\n' then [] :: splitNL cs
    else
      match splitNL cs with
      | t :: ts => (c :: t) :: ts
      | [] => [[c]]

/-- The regex `\w` character class, restricted to ASCII. -/
def isWordChar (c : Char) : Bool := c.isAlphanum || c = '_'

/-- Digit run to a natural number. -/
def digitsToNat (cs : List Char) : Nat :=
  cs.foldl (fun n c => n * 10 + (c.toNat - '0'.toNat)) 0

/-- Python `float(value)`, restricted to plain decimal literals
(`[+-]? (digits [. digits*] | . digits+)` with surrounding whitespace).
Python additionally accepts exponents, `inf`/`nan` and digit underscores;
the scripts' tag values only exercise plain decimals, and every string the
claims classify as non-numeric is rejected by both versions. -/
def parseFloat? (cs0 : List Char) : Option ℚ :=
  let cs1 := trimChars cs0
  let signed : Bool × List Char :=
    match cs1 with
    | '+' :: r => (false, r)
    | '-' :: r => (true, r)
    | r => (false, r)
  let neg := signed.1
  let cs2 := signed.2
  let ip := cs2.takeWhile Char.isDigit
  let mkVal : Nat → Nat → ℚ := fun n k =>
    if neg then mkRat (-(n : Int)) (10 ^ k) else mkRat (n : Int) (10 ^ k)
  match cs2.dropWhile Char.isDigit with
  | [] => if ip.isEmpty then none else some (mkVal (digitsToNat ip) 0)
  | '.' :: r2 =>
    let fp := r2.takeWhile Char.isDigit
    match r2.dropWhile Char.isDigit with
    | [] =>
      if ip.isEmpty && fp.isEmpty then none
      else some (mkVal (digitsToNat ip * 10 ^ fp.length + digitsToNat fp) fp.length)
    | _ => none
  | _ => none

/-! ### Data model

`CharacterConfig` and `DialogueSegment` are the dataclasses of
`multi_character_emotion_generator.py` (lines 54-76). -/

/-- `CharacterConfig` dataclass (lines 54-64). -/
structure CharacterConfig where
  name : String
  voice_file : String
  default_emotion : String := "calm"
  emotion_intensity : ℚ := mkRat 1 2
  speech_rate : ℚ := 1
  pitch : ℚ := 1
  volume : ℚ := 1
  description : String := ""
deriving DecidableEq

/-- `DialogueSegment` dataclass (lines 67-76).  `emo_text` holds the optional
descriptive emotion text. -/
structure DialogueSegment where
  text : String
  character : String
  emotion : String
  alpha : ℚ
  is_dialogue : Bool
  position : Nat
  emo_text : Option String := none
deriving DecidableEq

/-- The parsed character registry, `CharacterDialogueParser.characters`: a
Python dict from character id to configuration, modelled as an association
list (`List.lookup` is dict lookup; Python dict keys are unique, and the
theorems below only read the dict). -/
abbrev Characters : Type := List (String × CharacterConfig)

/-- Python `self.characters.get(char_id)`: dictionary lookup that returns
`None` for unknown keys (used at line 466). -/
def characters_get (characters : Characters) (char_id : String) :
    Option CharacterConfig :=
  List.lookup char_id characters

/-! ### Emotion tables -/

/-- The eight canonical IndexTTS2 emotions, in the fixed order of the
8-dimensional emotion vector (line 592 and spec §3 CanonicalEmotion). -/
def canonical_emotions : List String :=
  ["happy", "angry", "sad", "afraid", "disgusted", "melancholic", "surprised", "calm"]

/-- The `emotion_mapping` dict of `_map_emotion`
(`multi_character_emotion_generator.py` lines 330-350), in source order.
The Python literal repeats the keys `shocked`, `amazed` and `disgusted` with
identical values, so first-match lookup on this list agrees with the Python
dict (where the last binding wins). -/
def emotion_mapping : List (String × String) :=
  [("happy", "happy"), ("happiness", "happy"), ("joy", "happy"), ("excited", "happy"),
   ("sad", "sad"), ("sadness", "sad"), ("melancholy", "melancholic"),
   ("melancholic", "melancholic"), ("depressed", "melancholic"),
   ("angry", "angry"), ("anger", "angry"), ("rage", "angry"), ("fury", "angry"),
   ("afraid", "afraid"), ("fear", "afraid"), ("scared", "afraid"), ("terrified", "afraid"),
   ("disgusted", "disgusted"), ("disgust", "disgusted"), ("revolted", "disgusted"),
   ("surprised", "surprised"), ("surprise", "surprised"), ("amazed", "surprised"),
   ("shocked", "surprised"),
   ("calm", "calm"), ("neutral", "calm"), ("normal", "calm"), ("peaceful", "calm"),
   ("高兴", "happy"), ("快乐", "happy"), ("愤怒", "angry"), ("生气", "angry"),
   ("悲伤", "sad"), ("难过", "sad"), ("恐惧", "afraid"), ("害怕", "afraid"),
   ("反感", "disgusted"), ("厌恶", "disgusted"), ("惊讶", "surprised"), ("吃惊", "surprised"),
   ("低落", "melancholic"), ("忧郁", "melancholic"), ("自然", "calm"), ("平静", "calm"),
   ("determined", "angry"), ("resolved", "angry"), ("courageous", "angry"),
   ("thoughtful", "calm"), ("wise", "calm"), ("serene", "calm"),
   ("alarmed", "afraid"),
   ("outraged", "angry"), ("furious", "angry"),
   ("reverent", "calm"), ("respectful", "calm"), ("content", "happy"),
   ("nostalgic", "melancholic"), ("longing", "sad"), ("yearning", "sad")]

/-- `_map_emotion` (lines 328-352): lower-case the token, look it up in the
synonym table, default to `calm`. -/
def map_emotion (emotion_name : String) : String :=
  (List.lookup (String.mk (toLowerChars emotion_name.data)) emotion_mapping).getD "calm"

/-- `EmotionTagParser.EMOTION_MAPPING`
(`long_text_emotion_generator.py` lines 53-106), in source order. -/
def EMOTION_MAPPING : List (String × String) :=
  [("happy", "happy"), ("happiness", "happy"), ("joy", "happy"), ("excited", "happy"),
   ("sad", "sad"), ("sadness", "sad"), ("melancholy", "melancholic"),
   ("melancholic", "melancholic"), ("depressed", "melancholic"),
   ("angry", "angry"), ("anger", "angry"), ("rage", "angry"), ("fury", "angry"),
   ("afraid", "afraid"), ("fear", "afraid"), ("scared", "afraid"), ("terrified", "afraid"),
   ("disgusted", "disgusted"), ("disgust", "disgusted"), ("revolted", "disgusted"),
   ("surprised", "surprised"), ("surprise", "surprised"), ("amazed", "surprised"),
   ("shocked", "surprised"),
   ("calm", "calm"), ("neutral", "calm"), ("normal", "calm"), ("peaceful", "calm"),
   ("高兴", "happy"), ("快乐", "happy"), ("愤怒", "angry"), ("生气", "angry"),
   ("悲伤", "sad"), ("难过", "sad"), ("恐惧", "afraid"), ("害怕", "afraid"),
   ("反感", "disgusted"), ("厌恶", "disgusted"),
   ("低落", "melancholic"), ("忧郁", "melancholic"),
   ("惊讶", "surprised"), ("吃惊", "surprised"),
   ("自然", "calm"), ("平静", "calm")]

/-! ### Variant B grammar: `parse_text_with_characters`
(`multi_character_emotion_generator.py` lines 108-214) -/

/-- The three capture groups of one match of the tag regex
`\{\[\w+\]:\[\w+:[^\]]+\]\}` (line 120). -/
structure TagB where
  character : String
  emotion : String
  value : String
deriving DecidableEq

/-- One attempted match of the tag regex at the head of `cs`.  The regex is
deterministic: `\w+` must stop at the first non-word character and `[^\]]+`
at the first `]`, so maximal munch needs no backtracking.  Returns the three
groups and the remaining input. -/
def matchTagB (cs : List Char) : Option (TagB × List Char) :=
  match cs with
  | '{' :: '[' :: r1 =>
    let w1 := r1.takeWhile isWordChar
    match r1.dropWhile isWordChar with
    | ']' :: ':' :: '[' :: r2 =>
      let w2 := r2.takeWhile isWordChar
      match r2.dropWhile isWordChar with
      | ':' :: r3 =>
        let v := r3.takeWhile (fun c => c ≠ ']')
        match r3.dropWhile (fun c => c ≠ ']') with
        | ']' :: '}' :: r4 =>
          if w1 = [] ∨ w2 = [] ∨ v = [] then none
          else some (⟨String.mk w1, String.mk w2, String.mk v⟩, r4)
        | _ => none
      | _ => none
    | _ => none
  | _ => none

/-- `re.finditer`: scan left to right for non-overlapping matches of `m`,
resuming after each match.  Returns the text before the first match and, for
each match, the matched value with the raw text between it and the next match
(or the end).  The fuel argument dominates the input length; every `m` used
below consumes at least one character on success, so the fuel-exhausted case
is unreachable when called through `findTagsB`/`findTagsA`. -/
def scanWith {τ : Type} (m : List Char → Option (τ × List Char)) :
    Nat → List Char → List Char × List (τ × List Char)
  | 0, cs => (cs, [])
  | _ + 1, [] => ([], [])
  | fuel + 1, c :: cs =>
    match m (c :: cs) with
    | some (t, r) =>
      let s := scanWith m fuel r
      ([], (t, s.1) :: s.2)
    | none =>
      let s := scanWith m fuel cs
      (c :: s.1, s.2)

/-- `list(re.finditer(char_pattern, line))` (line 123), with each match paired
with the raw text that follows it up to the next match or the line end
(lines 160-165). -/
def findTagsB (cs : List Char) : List Char × List (TagB × List Char) :=
  scanWith matchTagB (cs.length + 1) cs

/-- `_extract_character_content` (lines 222-244) applied to a matched tag
`match.group(1)`: re-matching the anchored pattern on the full tag string
recovers exactly the scanner's three groups (group 4, the trailing content,
is always empty there), so only the float-vs-descriptive disambiguation of
the value remains: a parseable float is clamped to `[0,1]`, anything else is
kept as descriptive text (the `try/except ValueError`, lines 234-240). -/
def extract_character_content (t : TagB) : String × String × (ℚ ⊕ String) :=
  match parseFloat? t.value.data with
  | some intensity => (t.character, t.emotion, Sum.inl (clamp01 intensity))
  | none => (t.character, t.emotion, Sum.inr t.value)

/-- The segment built for one tag and its (already stripped) following text
(lines 167-212).  A registered character with non-empty following text gives
a dialogue segment; otherwise the segment is attributed to `narrator` with
`is_dialogue = False`.  A descriptive value yields alpha `0.8` and
`emo_text = f"{emotion}: {value}"`; a numeric value yields the clamped
intensity as alpha. -/
def tag_segment (characters : Characters) (t : TagB)
    (following_text : List Char) (position : Nat) : DialogueSegment :=
  let extracted := extract_character_content t
  let char_id := extracted.1
  let emotion := extracted.2.1
  let value := extracted.2.2
  if (List.lookup char_id characters).isSome ∧ following_text ≠ [] then
    match value with
    | Sum.inr d =>
      ⟨String.mk following_text, char_id, emotion, mkRat 8 10, true, position,
        some (emotion ++ ": " ++ d)⟩
    | Sum.inl a =>
      ⟨String.mk following_text, char_id, emotion, a, true, position, none⟩
  else
    match value with
    | Sum.inr d =>
      ⟨String.mk following_text, "narrator", emotion, mkRat 8 10, false, position,
        some (emotion ++ ": " ++ d)⟩
    | Sum.inl a =>
      ⟨String.mk following_text, "narrator", emotion, a, false, position, none⟩

/-- The `for i, match in enumerate(matches)` loop (lines 154-212): one segment
per tag, `position` incremented once per emitted segment. -/
def tag_loop (characters : Characters) :
    List (TagB × List Char) → Nat → List DialogueSegment × Nat
  | [], position => ([], position)
  | (t, follow) :: rest, position =>
    let seg := tag_segment characters t (trimChars follow) position
    let s := tag_loop characters rest (position + 1)
    (seg :: s.1, s.2)

/-- The body of the per-line loop of `parse_text_with_characters`
(lines 114-212): strip the line; skip it when empty; with no tag matches emit
one narration segment for the whole line (narrator, calm, alpha 0); otherwise
emit a narration segment for non-empty pre-tag text and then one segment per
tag. -/
def parse_line (characters : Characters) (raw_line : List Char)
    (position : Nat) : List DialogueSegment × Nat :=
  let line := trimChars raw_line
  if line = [] then ([], position)
  else
    let scanned := findTagsB line
    let pre := scanned.1
    let tagMatches := scanned.2
    if tagMatches = [] then
      ([⟨String.mk line, "narrator", "calm", 0, false, position, none⟩], position + 1)
    else
      let preAndPos : List DialogueSegment × Nat :=
        if pre ≠ [] then
          let pre_text := trimChars pre
          if pre_text ≠ [] then
            ([⟨String.mk pre_text, "narrator", "calm", 0, false, position, none⟩],
              position + 1)
          else ([], position)
        else ([], position)
      let tagged := tag_loop characters tagMatches preAndPos.2
      (preAndPos.1 ++ tagged.1, tagged.2)

/-- The outer `for line in lines` loop, threading `position` across lines. -/
def parse_lines (characters : Characters) :
    List (List Char) → Nat → List DialogueSegment
  | [], _ => []
  | l :: ls, position =>
    let s := parse_line characters l position
    s.1 ++ parse_lines characters ls s.2

/-- `parse_text_with_characters` (lines 108-214). -/
def parse_text_with_characters (characters : Characters)
    (text : String) : List DialogueSegment :=
  parse_lines characters (splitNL text.data) 0

def sarah_config : CharacterConfig := { name := "Sarah", voice_file := "sarah.wav" }

def sarah_registry : Characters := [("sarah", sarah_config)]

/-! ### Variant A grammar: `parse_emotion_tags`
(`long_text_emotion_generator.py` lines 111-189) -/

/-- Segment dict produced by `parse_emotion_tags`
(keys `text`, `emotion`, `alpha`, `position`). -/
structure EmoSegment where
  text : String
  emotion : String
  alpha : ℚ
  position : Nat
deriving DecidableEq

/-- One attempted match of the tag regex `\[([^\]]+)\]` (line 122) at the head
of `cs`: returns the capture group and the remaining input. -/
def matchATag (cs : List Char) : Option (List Char × List Char) :=
  match cs with
  | '[' :: r1 =>
    let inner := r1.takeWhile (fun c => c ≠ ']')
    match r1.dropWhile (fun c => c ≠ ']') with
    | ']' :: r2 => if inner = [] then none else some (inner, r2)
    | _ => none
  | _ => none

/-- `list(re.finditer(tag_pattern, text))` (line 130), with each capture group
paired with the raw text between this match and the next (or the end). -/
def findTagsA (cs : List Char) : List Char × List (List Char × List Char) :=
  scanWith matchATag (cs.length + 1) cs

/-- Parsing one tag's content (lines 143-157): lower-case and strip the
capture group; with a `:` present, split once, strip the emotion part, parse
the alpha part as a float and clamp it (`ValueError` degrades to alpha 1.0);
without a `:` the whole content is the emotion name and alpha is 1.0. -/
def parse_tag_content (inner : List Char) : String × ℚ :=
  let tag_content := trimChars (toLowerChars inner)
  if tag_content.any (fun c => c = ':') then
    let emotion_part := tag_content.takeWhile (fun c => c ≠ ':')
    let alpha_part := (tag_content.dropWhile (fun c => c ≠ ':')).tail
    let emotion_name := trimChars emotion_part
    let alpha_value :=
      match parseFloat? (trimChars alpha_part) with
      | some v => clamp01 v
      | none => 1
    (String.mk emotion_name, alpha_value)
  else (String.mk tag_content, 1)

/-- The `for i, match in enumerate(matches)` loop of `parse_emotion_tags`
(lines 142-187): each span of text is emitted (when non-empty after
stripping) under the emotion/alpha state *preceding* the tag that ends it;
the tag then updates the state.  `pending` is the raw span
`text[current_pos:match.start()]` and `current_pos` its character offset. -/
def parse_emotion_tags_loop (default_emotion : String) :
    List (List Char × List Char) → List Char → Nat → String → ℚ → List EmoSegment
  | [], pending, current_pos, current_emotion, current_alpha =>
    if pending ≠ [] ∧ trimChars pending ≠ [] then
      [⟨String.mk (trimChars pending), current_emotion, current_alpha, current_pos⟩]
    else []
  | (inner, follow) :: rest, pending, current_pos, current_emotion, current_alpha =>
    let parsed := parse_tag_content inner
    let emotion := (List.lookup parsed.1 EMOTION_MAPPING).getD default_emotion
    let emitted :=
      if pending ≠ [] ∧ trimChars pending ≠ [] then
        [⟨String.mk (trimChars pending), current_emotion, current_alpha, current_pos⟩]
      else []
    emitted ++ parse_emotion_tags_loop default_emotion rest follow
      (current_pos + pending.length + inner.length + 2) emotion parsed.2

/-- `parse_emotion_tags` (lines 111-189).  With no tag matches the whole
stripped input is one segment under the caller-supplied default emotion with
alpha 1.0 (lines 132-139). -/
def parse_emotion_tags (default_emotion : String) (text : String) : List EmoSegment :=
  let scanned := findTagsA text.data
  if scanned.2 = [] then
    [⟨String.mk (trimChars text.data), default_emotion, 1, 0⟩]
  else parse_emotion_tags_loop default_emotion scanned.2 scanned.1 0 default_emotion 1

/-! ### Segmenter: `TextSegmenter.segment_dialogue` and
`_split_long_segment` (`multi_character_emotion_generator.py` lines 355-419) -/

/-- `re.split(r'([。！？.!?])', text)`: split on sentence-terminal
punctuation, keeping each delimiter as its own element (the captured group),
including empty pieces between/around delimiters. -/
def splitCapture : List Char → List (List Char)
  | [] => [[]]
  | c :: cs =>
    if c = '。' ∨ c = '！' ∨ c = '？' ∨ c = '.' ∨ c = '!' ∨ c = '?' then
      [] :: [c] :: splitCapture cs
    else
      match splitCapture cs with
      | t :: ts => (c :: t) :: ts
      | [] => [[c]]

/-- The `for i in range(0, len(sentences), 2)` pairing (lines 385-389):
re-attach each delimiter to the text piece before it. -/
def pairSentences : List (List Char) → List (List Char)
  | [] => []
  | [x] => [x]
  | x :: y :: rest => (x ++ y) :: pairSentences rest

/-- A sub-segment produced by `_split_long_segment` (lines 392-399 and
410-417): all attribution fields are copied from the parent, but the
`DialogueSegment` constructor call omits `emo_text`, so it defaults to
`None`. -/
def mk_chunk (segment : DialogueSegment) (text : List Char) : DialogueSegment :=
  ⟨String.mk text, segment.character, segment.emotion, segment.alpha,
    segment.is_dialogue, segment.position, none⟩

/-- The sentence-accumulation loop of `_split_long_segment` (lines 383-417):
close the buffer as a chunk when appending the next sentence would exceed
`max_chars` and the buffer is non-empty; with positive overlap the tail of
the closed buffer seeds the next one. -/
def split_loop (max_chars overlap_chars : Nat) (segment : DialogueSegment) :
    List (List Char) → List Char → List DialogueSegment
  | [], current_text =>
    if current_text ≠ [] then [mk_chunk segment current_text] else []
  | sentence :: rest, current_text =>
    if max_chars < current_text.length + sentence.length ∧ current_text ≠ [] then
      let overlapped :=
        if 0 < overlap_chars then
          current_text.drop (current_text.length - overlap_chars)
        else []
      mk_chunk segment current_text ::
        split_loop max_chars overlap_chars segment rest (overlapped ++ sentence)
    else split_loop max_chars overlap_chars segment rest (current_text ++ sentence)

/-- `_split_long_segment` (lines 376-419). -/
def split_long_segment (max_chars overlap_chars : Nat)
    (segment : DialogueSegment) : List DialogueSegment :=
  split_loop max_chars overlap_chars segment
    (pairSentences (splitCapture segment.text.data)) []

/-- `segment_dialogue` (lines 362-374): segments at most `max_chars` long
pass through unchanged; longer ones are split. -/
def segment_dialogue (max_chars overlap_chars : Nat) :
    List DialogueSegment → List DialogueSegment
  | [] => []
  | segment :: rest =>
    (if segment.text.length ≤ max_chars then [segment]
     else split_long_segment max_chars overlap_chars segment) ++
      segment_dialogue max_chars overlap_chars rest

/-! ### Alpha policy and the synthesis call
(`multi_character_emotion_generator.py` lines 505-600) -/

/-- The alpha adjustment of `_generate_segment_audio` (lines 516-526):
`alpha <= 0.1` disables emotion entirely, dialogue is amplified by 1.2 and
capped at 1.0, narration is damped by 0.8.  The computation produces a new
local value (`adjusted_alpha`) and never writes back to the segment. -/
def adjust_alpha (alpha : ℚ) (is_dialogue : Bool) : ℚ :=
  if alpha ≤ mkRat 1 10 then 0
  else if is_dialogue then qmin 1 (qmul alpha (mkRat 12 10))
  else qmul alpha (mkRat 8 10)

/-- The Alpha Policy exactly as the specification words it (§4.5):
`alpha <= 0.1 → 0.0`, `else if dialogue → min(1.0, alpha * 1.2)`,
`else → alpha * 0.8`. -/
def adjust_alpha_spec (alpha : ℚ) (is_dialogue : Bool) : ℚ :=
  if alpha ≤ 1 / 10 then 0
  else if is_dialogue then min 1 (alpha * (12 / 10))
  else alpha * (8 / 10)

/-- `_create_emotion_vector` (lines 590-600): an 8-vector that is `alpha` at
the emotion's index and zero elsewhere; an unknown emotion puts `alpha` in
the last (calm) slot. -/
def create_emotion_vector (emotion : String) (alpha : ℚ) : List ℚ :=
  let emotion_vector := List.replicate 8 (0 : ℚ)
  if emotion ∈ canonical_emotions then
    emotion_vector.set (canonical_emotions.findIdx (fun e => e == emotion)) alpha
  else emotion_vector.set 7 alpha

/-- Which of the three `tts.infer` call shapes `_generate_segment_audio`
issues (lines 546-583): descriptive emotion text, emotion vector, or plain
voice cloning without emotion parameters. -/
inductive EmoMode
  | emoText (emo_text : String) (emo_alpha : ℚ)
  | emoVector (emo_vector : List ℚ) (emo_alpha : ℚ)
  | plain
deriving DecidableEq

/-- The arguments handed to the external synthesis collaborator for one
segment. -/
structure InferCall where
  voice_file : String
  text : String
  mode : EmoMode
  use_speed : Nat
deriving DecidableEq

/-- The `emo_alpha` argument of an `InferCall`, when the call carries one. -/
def infer_emo_alpha : InferCall → Option ℚ
  | ⟨_, _, EmoMode.emoText _ a, _⟩ => some a
  | ⟨_, _, EmoMode.emoVector _ a, _⟩ => some a
  | ⟨_, _, EmoMode.plain, _⟩ => none

/-- The pure part of `_generate_segment_audio` (lines 516-583): compute the
adjusted alpha, the speech-speed flag (lines 537-543), and the `tts.infer`
call shape.  With `adjusted_alpha > 0` a segment with `emo_text` uses the
descriptive-text call, otherwise the emotion-vector call; with
`adjusted_alpha = 0` no emotion parameters are passed. -/
def segment_infer_call (character : CharacterConfig)
    (segment : DialogueSegment) : InferCall :=
  let adjusted_alpha := adjust_alpha segment.alpha segment.is_dialogue
  let use_speed :=
    if mkRat 13 10 ≤ character.speech_rate then 1
    else if character.speech_rate ≤ mkRat 8 10 then 0
    else 0
  { voice_file := character.voice_file
    text := segment.text
    use_speed := use_speed
    mode :=
      if 0 < adjusted_alpha then
        match segment.emo_text with
        | some t => EmoMode.emoText t adjusted_alpha
        | none => EmoMode.emoVector (create_emotion_vector segment.emotion adjusted_alpha) adjusted_alpha
      else EmoMode.plain }

/-- Result of `_generate_segment_audio` (lines 505-588): `produced (some p)`
is a generated artifact path, `produced none` is the skip path (model
unavailable, or any exception raised inside the `try` block at lines
529-588, which is caught and logged), and `keyError` is the uncaught
`KeyError` from `self.dialogue_parser.characters[segment.character]` at
line 514, which sits *outside* the `try` block. -/
inductive GenResult
  | produced (artifact : Option String)
  | keyError (key : String)
deriving DecidableEq

/-- `_generate_segment_audio` (lines 505-588).  `infer` abstracts the
external `tts.infer` collaborator: `none` models an exception raised by the
synthesis call (caught at lines 586-588), `some p` a produced artifact. -/
def generate_segment_audio (tts_available : Bool) (characters : Characters)
    (infer : Nat → InferCall → Option String) (segment : DialogueSegment)
    (segment_index : Nat) : GenResult :=
  if tts_available = false then GenResult.produced none
  else
    match List.lookup segment.character characters with
    | none => GenResult.keyError segment.character
    | some character =>
      GenResult.produced (infer segment_index (segment_infer_call character segment))

/-- Outcome of the per-chunk generation loop of `generate_audio`.  `raised`
models an exception escaping the loop (the `try` at lines 485-503 has only a
`finally`, so exceptions propagate). -/
inductive LoopResult
  | finished (audio_segments : List String)
  | raised (key : String)
deriving DecidableEq

/-- Whether the run proceeded to assembly (`success`, line 495-497) or took
the `"No audio segments were generated"` warning path (`noAudioProduced`,
line 499). -/
inductive RunReport
  | success
  | noAudioProduced
deriving DecidableEq

/-- Final outcome of `generate_audio` (lines 481-499): the collected
artifacts plus the report, or an uncaught exception. -/
inductive DispatchOutcome
  | completed (audio_segments : List String) (report : RunReport)
  | raised (key : String)
deriving DecidableEq

/-- The `for i, segment in enumerate(segmented_dialogue)` loop of
`generate_audio` (lines 486-492): segments whose generation returns `None`
are skipped; successful artifacts are appended in order. -/
def generate_audio_loop (tts_available : Bool) (characters : Characters)
    (infer : Nat → InferCall → Option String) :
    List DialogueSegment → Nat → List String → LoopResult
  | [], _, audio_segments => LoopResult.finished audio_segments
  | segment :: rest, i, audio_segments =>
    match generate_segment_audio tts_available characters infer segment i with
    | GenResult.keyError k => LoopResult.raised k
    | GenResult.produced none =>
      generate_audio_loop tts_available characters infer rest (i + 1) audio_segments
    | GenResult.produced (some a) =>
      generate_audio_loop tts_available characters infer rest (i + 1)
        (audio_segments ++ [a])

/-- The dispatch stage of `generate_audio` (lines 481-499): run the loop over
all segments starting at index 0 with an empty artifact list, then branch on
whether any artifact was produced (line 495): concatenation and success
report, or the `"No audio segments were generated"` warning.  The report is
`true` for success. -/
def generate_audio_dispatch (tts_available : Bool) (characters : Characters)
    (infer : Nat → InferCall → Option String)
    (segments : List DialogueSegment) : DispatchOutcome :=
  match generate_audio_loop tts_available characters infer segments 0 [] with
  | LoopResult.raised k => DispatchOutcome.raised k
  | LoopResult.finished audio_segments =>
    DispatchOutcome.completed audio_segments
      (if audio_segments.isEmpty then RunReport.noAudioProduced else RunReport.success)

/-- A segment attributed to `narrator` in a configuration that defines no
narrator entry: dispatching it reaches the uncaught dictionary indexing. -/
def narrator_plain_segment : DialogueSegment :=
  ⟨"Hello.", "narrator", "calm", 0, false, 0, none⟩

/-- Registry, segments and synthesis oracle for the dispatch example: five
chunks, the oracle fails on the three middle indices. -/
def narrator_registry : Characters := [("narrator", { name := "N", voice_file := "n.wav" })]

def five_segments : List DialogueSegment :=
  [⟨"One.", "narrator", "calm", 0, false, 0, none⟩,
   ⟨"Two.", "narrator", "calm", 0, false, 1, none⟩,
   ⟨"Three.", "narrator", "calm", 0, false, 2, none⟩,
   ⟨"Four.", "narrator", "calm", 0, false, 3, none⟩,
   ⟨"Five.", "narrator", "calm", 0, false, 4, none⟩]

def flaky_infer : Nat → InferCall → Option String := fun i _ =>
  if i = 0 then some "segment_0000.wav"
  else if i = 4 then some "segment_0004.wav"
  else none

/-- The Chunk of the descriptive-emotion example
(`{[sarah]:[excited:very enthusiastic]}Great news!` with `sarah`
registered). -/
def c8_segment : DialogueSegment :=
  ⟨"Great news!", "sarah", "excited", mkRat 8 10, true, 0,
    some "excited: very enthusiastic"⟩

/-- A segment with an id registered nowhere. -/
def ghost_segment : DialogueSegment := ⟨"Boo.", "ghost", "calm", 0, false, 0, none⟩

/-! ### Helper lemmas -/

theorem qmin_eq_min (a b : ℚ) : qmin a b = min a b := by
  rw [qmin, min_def]

theorem qmax_eq_max (a b : ℚ) : qmax a b = max a b := by
  rw [qmax, max_def]

theorem qmul_eq_mul (a b : ℚ) : qmul a b = a * b := by
  rw [qmul, Rat.mkRat_eq_div]
  push_cast
  conv_rhs => rw [← Rat.num_div_den a, ← Rat.num_div_den b, div_mul_div_comm]

theorem clamp01_nonneg (x : ℚ) : 0 ≤ clamp01 x := by
  unfold clamp01 qmax qmin
  split_ifs <;> linarith

theorem clamp01_le_one (x : ℚ) : clamp01 x ≤ 1 := by
  unfold clamp01 qmax qmin
  split_ifs <;> linarith

theorem adjust_alpha_eq_spec (alpha : ℚ) (is_dialogue : Bool) :
    adjust_alpha alpha is_dialogue = adjust_alpha_spec alpha is_dialogue := by
  have h1 : (mkRat 1 10 : ℚ) = 1 / 10 := by rw [Rat.mkRat_eq_div]; norm_num
  have h2 : (mkRat 12 10 : ℚ) = 12 / 10 := by rw [Rat.mkRat_eq_div]; norm_num
  have h3 : (mkRat 8 10 : ℚ) = 8 / 10 := by rw [Rat.mkRat_eq_div]; norm_num
  rw [adjust_alpha, adjust_alpha_spec]
  simp only [qmul_eq_mul, qmin_eq_min, h1, h2, h3]

/-- A value returned by an association-list lookup is one of the stored
values. -/
theorem lookup_snd_mem {α β : Type} [BEq α] :
    ∀ (l : List (α × β)) (k : α) (v : β),
      List.lookup k l = some v → v ∈ l.map Prod.snd := by
  intro l
  induction l with
  | nil => intro k v h; simp [List.lookup] at h
  | cons p t ih =>
    intro k v h
    obtain ⟨pk, pv⟩ := p
    by_cases hbeq : k == pk
    · simp only [List.lookup, hbeq] at h
      simp only [List.map_cons, List.mem_cons]
      exact Or.inl (by injection h with h; exact h.symm)
    · rw [Bool.not_eq_true] at hbeq
      simp only [List.lookup, hbeq] at h
      exact List.mem_cons_of_mem _ (ih k v h)

theorem emotion_mapping_values :
    ∀ v ∈ emotion_mapping.map Prod.snd, v ∈ canonical_emotions := by decide

theorem EMOTION_MAPPING_values :
    ∀ v ∈ EMOTION_MAPPING.map Prod.snd, v ∈ canonical_emotions := by decide

theorem map_emotion_canonical (emotion_name : String) :
    map_emotion emotion_name ∈ canonical_emotions := by
  unfold map_emotion
  cases h : List.lookup (String.mk (toLowerChars emotion_name.data)) emotion_mapping with
  | none => simp only [Option.getD_none]; decide
  | some v =>
    simp only [Option.getD_some]
    exact emotion_mapping_values v (lookup_snd_mem _ _ _ h)

/-- Every segment emitted by the Variant A loop carries either the running
emotion (itself canonical by invariant), a value of `EMOTION_MAPPING`, or the
default emotion. -/
theorem parse_emotion_tags_loop_canonical (default_emotion : String)
    (hdef : default_emotion ∈ canonical_emotions) :
    ∀ (items : List (List Char × List Char)) (pending : List Char)
      (current_pos : Nat) (current_emotion : String) (current_alpha : ℚ),
      current_emotion ∈ canonical_emotions →
      ∀ s ∈ parse_emotion_tags_loop default_emotion items pending current_pos
          current_emotion current_alpha,
        s.emotion ∈ canonical_emotions := by
  intro items
  induction items with
  | nil =>
    intro pending current_pos current_emotion current_alpha he s hs
    unfold parse_emotion_tags_loop at hs
    split at hs
    · rw [List.mem_singleton] at hs
      rw [hs]
      exact he
    · simp at hs
  | cons it rest ih =>
    intro pending current_pos current_emotion current_alpha he s hs
    obtain ⟨inner, follow⟩ := it
    unfold parse_emotion_tags_loop at hs
    rw [List.mem_append] at hs
    rcases hs with hs | hs
    · split at hs
      · rw [List.mem_singleton] at hs
        rw [hs]
        exact he
      · simp at hs
    · refine ih follow _ _ _ ?_ s hs
      cases hl : List.lookup (parse_tag_content inner).1 EMOTION_MAPPING with
      | none => simpa only [hl, Option.getD_none] using hdef
      | some v =>
        simp only [hl, Option.getD_some]
        exact EMOTION_MAPPING_values v (lookup_snd_mem _ _ _ hl)

/-- Every chunk built by the `_split_long_segment` accumulation loop copies
the parent's attribution fields and has `emo_text = none`. -/
theorem split_loop_fields (max_chars overlap_chars : Nat)
    (segment : DialogueSegment) :
    ∀ (sentences : List (List Char)) (current_text : List Char)
      (chunk : DialogueSegment),
      chunk ∈ split_loop max_chars overlap_chars segment sentences current_text →
      chunk.character = segment.character ∧ chunk.emotion = segment.emotion ∧
      chunk.alpha = segment.alpha ∧ chunk.is_dialogue = segment.is_dialogue ∧
      chunk.position = segment.position ∧ chunk.emo_text = none := by
  intro sentences
  induction sentences with
  | nil =>
    intro current_text chunk hc
    unfold split_loop at hc
    split at hc
    · rw [List.mem_singleton] at hc
      rw [hc]
      exact ⟨rfl, rfl, rfl, rfl, rfl, rfl⟩
    · simp at hc
  | cons sentence rest ih =>
    intro current_text chunk hc
    unfold split_loop at hc
    split at hc
    · rw [List.mem_cons] at hc
      rcases hc with hc | hc
      · rw [hc]
        exact ⟨rfl, rfl, rfl, rfl, rfl, rfl⟩
      · exact ih _ chunk hc
    · exact ih _ chunk hc

/-- The generation loop with every segment's character resolvable: the
collected artifacts are exactly the successful synthesis results, in input
order. -/
theorem generate_audio_loop_spec (characters : Characters)
    (infer : Nat → InferCall → Option String) :
    ∀ (segments : List DialogueSegment),
      (∀ s ∈ segments, (List.lookup s.character characters).isSome) →
      ∀ (i : Nat) (acc : List String),
        generate_audio_loop true characters infer segments i acc =
          LoopResult.finished (acc ++ (List.enumFrom i segments).filterMap
            (fun p => (List.lookup p.2.character characters).bind
              (fun c => infer p.1 (segment_infer_call c p.2)))) := by
  intro segments
  induction segments with
  | nil => intro _ i acc; simp [generate_audio_loop, List.enumFrom]
  | cons s rest ih =>
    intro h i acc
    obtain ⟨c, hc⟩ := Option.isSome_iff_exists.mp (h s (List.mem_cons_self s rest))
    have hrest : ∀ x ∈ rest, (List.lookup x.character characters).isSome :=
      fun x hx => h x (List.mem_cons_of_mem s hx)
    unfold generate_audio_loop generate_segment_audio
    rw [hc]
    simp only [Bool.true_eq_false, if_false, List.enumFrom, List.filterMap_cons, hc,
      Option.some_bind]
    cases hr : infer i (segment_infer_call c s) with
    | none => simp [ih hrest]
    | some a => simp [ih hrest]

/-! ### Claim theorems -/

/-- Claim C1: for every chunk handed to the synthesis collaborator the
adjusted alpha is 0.0 when the stored alpha is at most 0.1, `min(1.0,
alpha * 1.2)` for dialogue above the threshold, and `alpha * 0.8` for
narration above the threshold (`adjust_alpha_spec` is that policy verbatim);
in particular `adjust(0.05, dialogue) = 0`, `adjust(0.5, dialogue) = 0.6`,
`adjust(0.5, narration) = 0.4` and `adjust(0.9, dialogue) = 1` (clamped).
The adjustment never mutates the chunk's stored alpha: `segment_infer_call`
is a pure function of the segment, the call's `emo_alpha` argument is the
adjusted value (present exactly when it is positive) and the segment's own
field is read, never written. -/
theorem C1_alpha_policy :
    (∀ (alpha : ℚ) (is_dialogue : Bool),
      adjust_alpha alpha is_dialogue = adjust_alpha_spec alpha is_dialogue)
    ∧ adjust_alpha (mkRat 5 100) true = 0
    ∧ adjust_alpha (mkRat 1 2) true = mkRat 3 5
    ∧ adjust_alpha (mkRat 1 2) false = mkRat 2 5
    ∧ adjust_alpha (mkRat 9 10) true = 1
    ∧ (∀ (character : CharacterConfig) (segment : DialogueSegment),
        infer_emo_alpha (segment_infer_call character segment) =
          (if 0 < adjust_alpha segment.alpha segment.is_dialogue then
            some (adjust_alpha segment.alpha segment.is_dialogue)
          else none)
        ∧ (segment_infer_call character segment).text = segment.text) := by
  refine ⟨adjust_alpha_eq_spec, by decide, by decide, by decide, by decide, ?_⟩
  intro character segment
  constructor
  · simp only [segment_infer_call]
    cases hemo : segment.emo_text <;> split_ifs with h <;> simp [infer_emo_alpha]
  · rfl

/-- Claim C2 (corrected) counterexample: the Variant B parser stores the raw
emotion token of the tag in the emitted segment without normalizing it, so a
registered character speaking with the documented synonym `excited` yields a
segment whose emotion is `excited`, which is not a member of the canonical
eight-element enumeration. -/
theorem C2_counterexample :
    parse_text_with_characters sarah_registry "{[sarah]:[excited:0.5]}Hi" =
      [⟨"Hi", "sarah", "excited", mkRat 1 2, true, 0, none⟩]
    ∧ ¬ ("excited" ∈ canonical_emotions) := by decide

/-- Claim C2 (amended): the `_map_emotion` normalizer maps every token
(recognized or not) to a member of the canonical enumeration, with `calm`
for every unmapped token; the Variant A parser only emits canonical emotions
whenever its caller-supplied default is canonical; and the emotion-vector
constructor routes any non-canonical emotion into the calm slot.  The
Variant B parser, however, carries the raw tag token (see the
counterexample), so its segments are only normalized at the emotion-vector
boundary. -/
theorem C2_amended_normalization :
    (∀ emotion_name : String, map_emotion emotion_name ∈ canonical_emotions)
    ∧ (∀ (default_emotion : String) (text : String),
        default_emotion ∈ canonical_emotions →
        ∀ s ∈ parse_emotion_tags default_emotion text,
          s.emotion ∈ canonical_emotions)
    ∧ (∀ (emotion : String) (alpha : ℚ), emotion ∉ canonical_emotions →
        create_emotion_vector emotion alpha = (List.replicate 8 (0 : ℚ)).set 7 alpha) := by
  refine ⟨map_emotion_canonical, ?_, ?_⟩
  · intro default_emotion text hdef s hs
    simp only [parse_emotion_tags] at hs
    split at hs
    · rw [List.mem_singleton] at hs
      rw [hs]
      exact hdef
    · exact parse_emotion_tags_loop_canonical default_emotion hdef _ _ _ _ _ hdef s hs
  · intro emotion alpha hne
    unfold create_emotion_vector
    rw [if_neg hne]

/-- Claim C2 witness: the canonical default `calm` and the sole segment of a
tag-free Variant A parse, whose emotion the amended theorem certifies as
canonical. -/
theorem C2_witness :
    ("calm" ∈ canonical_emotions)
    ∧ (⟨"hello", "calm", 1, 0⟩ : EmoSegment).emotion ∈ canonical_emotions :=
  ⟨by decide,
    C2_amended_normalization.2.1 "calm" "hello" (by decide)
      ⟨"hello", "calm", 1, 0⟩ (by decide)⟩

/-- Claim C3 (corrected) counterexample: splitting a long segment that
carries descriptive emotion text produces chunks whose
`descriptiveEmotionText` is `None`, not the parent's value — the
`DialogueSegment` constructor calls inside `_split_long_segment` omit
`emo_text`. -/
theorem C3_counterexample :
    (split_long_segment 5 0
        ⟨"aaaa. bbbb.", "sarah", "happy", mkRat 1 2, true, 0,
          some "happy: joyful"⟩).map DialogueSegment.emo_text = [none, none]
    ∧ (⟨"aaaa. bbbb.", "sarah", "happy", mkRat 1 2, true, 0,
        some "happy: joyful"⟩ : DialogueSegment).emo_text = some "happy: joyful" := by
  decide

/-- Claim C3 (amended): every chunk produced by splitting a long RawSegment
inherits the parent's `characterId`, `emotion`, `alpha`, `isDialogue` and
`position` unchanged and only the text differs, but `descriptiveEmotionText`
is not inherited: split chunks always carry `emo_text = none`.  Segments
short enough not to be split pass through `segment_dialogue` unchanged
(including their descriptive text). -/
theorem C3_amended_split_inheritance :
    (∀ (max_chars overlap_chars : Nat) (segment chunk : DialogueSegment),
      chunk ∈ split_long_segment max_chars overlap_chars segment →
      chunk.character = segment.character ∧ chunk.emotion = segment.emotion ∧
      chunk.alpha = segment.alpha ∧ chunk.is_dialogue = segment.is_dialogue ∧
      chunk.position = segment.position ∧ chunk.emo_text = none)
    ∧ (∀ (max_chars overlap_chars : Nat) (segment : DialogueSegment),
        segment.text.length ≤ max_chars →
        segment_dialogue max_chars overlap_chars [segment] = [segment]) := by
  constructor
  · intro max_chars overlap_chars segment chunk hc
    exact split_loop_fields max_chars overlap_chars segment _ _ chunk hc
  · intro max_chars overlap_chars segment hlen
    unfold segment_dialogue
    rw [if_pos hlen]
    rfl

/-- Claim C3 witness: a concrete split chunk of a dialogue parent, with the
amended theorem certifying the inherited fields and the cleared descriptive
text. -/
theorem C3_witness :
    (⟨"aaaa.", "sarah", "happy", mkRat 1 2, true, 0, none⟩ : DialogueSegment).character = "sarah"
    ∧ (⟨"aaaa.", "sarah", "happy", mkRat 1 2, true, 0, none⟩ : DialogueSegment).emo_text = none :=
  have h := C3_amended_split_inheritance.1 5 0
    ⟨"aaaa. bbbb.", "sarah", "happy", mkRat 1 2, true, 0, some "happy: joyful"⟩
    ⟨"aaaa.", "sarah", "happy", mkRat 1 2, true, 0, none⟩ (by decide)
  ⟨h.1, h.2.2.2.2.2⟩

/-- Claim C4 (corrected) counterexample: the registry synthesizes no
`narrator` profile — with an empty configuration, `.get`-style resolution of
`narrator` returns `None`, and the dispatch path, which indexes
`self.characters[segment.character]` directly outside its `try` block,
raises a `KeyError` instead of dispatching without error. -/
theorem C4_counterexample :
    characters_get [] "narrator" = none
    ∧ generate_segment_audio true [] (fun _ _ => some "segment_0000.wav")
        narrator_plain_segment 0 = GenResult.keyError "narrator"
    ∧ generate_audio_dispatch true [] (fun _ _ => some "segment_0000.wav")
        [narrator_plain_segment] = DispatchOutcome.raised "narrator" := by decide

/-- Claim C4 (amended): `.get`-style resolution (`characters_get`) is total
and returns `None` for unknown ids, but no reserved `narrator` profile is
synthesized: per-segment dispatch raises a `KeyError` exactly when the
segment's character id (narrator included) is absent from the loaded
configuration, and proceeds to the synthesis call exactly when it is
present. -/
theorem C4_amended_resolution :
    ∀ (characters : Characters) (infer : Nat → InferCall → Option String)
      (segment : DialogueSegment) (segment_index : Nat),
      (characters_get characters segment.character = none →
        generate_segment_audio true characters infer segment segment_index =
          GenResult.keyError segment.character)
      ∧ (∀ c, characters_get characters segment.character = some c →
          generate_segment_audio true characters infer segment segment_index =
            GenResult.produced (infer segment_index (segment_infer_call c segment))) := by
  intro characters infer segment segment_index
  constructor
  · intro h
    unfold generate_segment_audio
    rw [characters_get] at h
    rw [h]
    rfl
  · intro c h
    unfold generate_segment_audio
    rw [characters_get] at h
    rw [h]
    rfl

/-- Claim C4 witness: a segment with the unknown id `ghost` raises, and a
segment with the registered id `sarah` reaches the synthesis call. -/
theorem C4_witness :
    generate_segment_audio true sarah_registry (fun _ _ => none) ghost_segment 3 =
      GenResult.keyError "ghost"
    ∧ generate_segment_audio true sarah_registry (fun _ _ => none)
        ⟨"Hi", "sarah", "happy", mkRat 1 2, true, 0, none⟩ 0 =
      GenResult.produced none :=
  ⟨(C4_amended_resolution sarah_registry (fun _ _ => none) ghost_segment 3).1 (by decide),
   (C4_amended_resolution sarah_registry (fun _ _ => none)
      ⟨"Hi", "sarah", "happy", mkRat 1 2, true, 0, none⟩ 0).2 sarah_config (by decide)⟩

/-- Claim C5 (corrected) counterexample: a whitespace-only line contains no
matching character tag, yet it is skipped (`if not line: continue`) and emits
zero segments, not exactly one narration segment. -/
theorem C5_counterexample :
    parse_text_with_characters [] "   " = [] := by decide

/-- Claim C5 (amended): every line that is non-empty after stripping and
contains no matching Variant B tag is emitted as exactly one narration
RawSegment with character `narrator`, emotion `calm`, alpha 0.0 and
`isDialogue = False` (whitespace-only lines are skipped); and on a tagged
line whose pre-tag text is non-empty after stripping, that text is emitted
first as its own narration RawSegment under the same zero-alpha rule. -/
theorem C5_amended_untagged_lines :
    ∀ (characters : Characters) (raw_line : List Char) (position : Nat),
      (trimChars raw_line ≠ [] →
        (findTagsB (trimChars raw_line)).2 = [] →
        parse_line characters raw_line position =
          ([⟨String.mk (trimChars raw_line), "narrator", "calm", 0, false,
              position, none⟩], position + 1))
      ∧ (∀ pre tags, findTagsB (trimChars raw_line) = (pre, tags) → tags ≠ [] →
          trimChars pre ≠ [] →
          (parse_line characters raw_line position).1 =
            ⟨String.mk (trimChars pre), "narrator", "calm", 0, false, position, none⟩ ::
              (tag_loop characters tags (position + 1)).1) := by
  intro characters raw_line position
  constructor
  · intro hline htags
    simp only [parse_line]
    rw [if_neg hline, if_pos htags]
  · intro pre tags hscan htags hpre
    have hline : trimChars raw_line ≠ [] := by
      intro h0
      rw [h0] at hscan
      have : tags = [] := congrArg Prod.snd hscan.symm
      exact htags this
    have hprene : pre ≠ [] := by
      intro h0
      rw [h0] at hpre
      exact hpre rfl
    simp only [parse_line]
    rw [if_neg hline, hscan]
    simp only
    rw [if_neg htags, if_pos hprene, if_pos hpre]
    simp

/-- Claim C5 witness: a plain line and a line with leading narration before a
tag, both instantiating the amended theorem. -/
theorem C5_witness :
    parse_line [] "hello there".data 0 =
      ([⟨"hello there", "narrator", "calm", 0, false, 0, none⟩], 1)
    ∧ (parse_line sarah_registry "Intro. {[sarah]:[happy:0.5]}Hi".data 4).1 =
      ⟨"Intro.", "narrator", "calm", 0, false, 4, none⟩ ::
        (tag_loop sarah_registry
          [(⟨"sarah", "happy", "0.5"⟩, "Hi".data)] 5).1 :=
  ⟨(C5_amended_untagged_lines [] "hello there".data 0).1 (by decide) (by decide),
   (C5_amended_untagged_lines sarah_registry "Intro. {[sarah]:[happy:0.5]}Hi".data 4).2
     "Intro. ".data [(⟨"sarah", "happy", "0.5"⟩, "Hi".data)]
     (by decide) (by decide) (by decide)⟩

/-- Claim C6 (corrected) counterexample: a Variant B tag whose following text
is empty is not dropped — the `else` branch at lines 191-212 still appends a
segment, so the parse emits exactly one segment whose text is the empty
string. -/
theorem C6_counterexample :
    (parse_text_with_characters [] "{[sarah]:[happy:0.5]}").map
      DialogueSegment.text = [""] := by decide

/-- Claim C6 (amended): a Variant B tag with no following non-empty text is
not dropped: it still produces one segment, attributed to `narrator` with
`isDialogue = False` and empty text, whether or not the tag's character is
registered — so parser output can contain empty-text segments. -/
theorem C6_amended_empty_tag_text :
    parse_text_with_characters sarah_registry "{[sarah]:[happy:0.5]}" =
      [⟨"", "narrator", "happy", mkRat 1 2, false, 0, none⟩]
    ∧ parse_text_with_characters [] "{[sarah]:[happy:0.5]}" =
      [⟨"", "narrator", "happy", mkRat 1 2, false, 0, none⟩] := by decide

/-- Claim C7: when every chunk's character resolves, a per-chunk synthesis
failure (the oracle returning `none`, modelling the caught exception) only
skips that chunk: the dispatch loop always terminates with exactly the
successful artifacts in original relative order (the `filterMap` over the
enumerated chunks), and the outcome reports `noAudioProduced` precisely when
that list is empty, `success` otherwise. -/
theorem C7_dispatch_skip_order_report :
    ∀ (characters : Characters) (infer : Nat → InferCall → Option String)
      (segments : List DialogueSegment),
      (∀ s ∈ segments, (List.lookup s.character characters).isSome) →
      generate_audio_dispatch true characters infer segments =
        DispatchOutcome.completed
          (segments.enum.filterMap
            (fun p => (List.lookup p.2.character characters).bind
              (fun c => infer p.1 (segment_infer_call c p.2))))
          (if (segments.enum.filterMap
              (fun p => (List.lookup p.2.character characters).bind
                (fun c => infer p.1 (segment_infer_call c p.2)))).isEmpty
            then RunReport.noAudioProduced else RunReport.success) := by
  intro characters infer segments h
  unfold generate_audio_dispatch
  rw [generate_audio_loop_spec characters infer segments h 0 []]
  rw [List.nil_append]
  rfl

/-- Claim C7 witness: three of five chunks fail synthesis; the final artifact
list is exactly the two successful artifacts in their original relative
order and the run reports success. -/
theorem C7_witness :
    (∀ s ∈ five_segments, (List.lookup s.character narrator_registry).isSome)
    ∧ generate_audio_dispatch true narrator_registry flaky_infer five_segments =
        DispatchOutcome.completed ["segment_0000.wav", "segment_0004.wav"]
          RunReport.success :=
  ⟨by decide, by
    rw [C7_dispatch_skip_order_report narrator_registry flaky_infer five_segments
      (by decide)]
    decide⟩

/-- Claim C8: a Variant B tag whose value part is not a float yields alpha
0.8 (`mkRat 8 10`) and `descriptiveEmotionText` equal to the emotion token,
`": "`, and the original descriptive string; end to end,
`{[sarah]:[excited:very enthusiastic]}Great news!` with `sarah` registered
parses to exactly one segment with `emo_text = "excited: very enthusiastic"`
and alpha 0.8, survives segmentation unchanged, and reaches the synthesis
boundary as the descriptive-text call shape (`use_emo_text`) carrying that
string (with the dialogue-amplified alpha 0.96 = 24/25). -/
theorem C8_descriptive_emotion_end_to_end :
    parse_text_with_characters sarah_registry
      "{[sarah]:[excited:very enthusiastic]}Great news!" = [c8_segment]
    ∧ segment_dialogue 200 30 [c8_segment] = [c8_segment]
    ∧ c8_segment.emo_text = some "excited: very enthusiastic"
    ∧ c8_segment.alpha = mkRat 8 10
    ∧ segment_infer_call sarah_config c8_segment =
        ⟨"sarah.wav", "Great news!",
          EmoMode.emoText "excited: very enthusiastic" (mkRat 24 25), 0⟩ := by
  decide

/-- Claim C9: Variant A on input without bracket tags (the scanner finds no
match of `\[([^\]]+)\]`) returns exactly one segment: the whole input
stripped, the caller-supplied default emotion, and alpha 1.0. -/
theorem C9_variant_a_no_tags :
    ∀ (default_emotion : String) (text : String),
      (findTagsA text.data).2 = [] →
      parse_emotion_tags default_emotion text =
        [⟨String.mk (trimChars text.data), default_emotion, 1, 0⟩] := by
  intro default_emotion text h
  simp only [parse_emotion_tags]
  rw [if_pos h]

/-- Claim C9 witness: a concrete tag-free input under a caller-supplied
default emotion. -/
theorem C9_witness :
    (findTagsA "  Once upon a time  ".data).2 = []
    ∧ parse_emotion_tags "happy" "  Once upon a time  " =
        [⟨"Once upon a time", "happy", 1, 0⟩] :=
  ⟨by decide, C9_variant_a_no_tags "happy" "  Once upon a time  " (by decide)⟩

/-- Claim C10: a Variant B tag naming an unregistered character, followed by
non-empty text, yields a segment reattributed to `narrator` with
`isDialogue = False` that otherwise agrees with the segment the same tag
would produce for a registered character: same text, same raw emotion token,
same alpha (the clamped float for a numeric value, 0.8 for a descriptive
value) and same preserved `descriptiveEmotionText`; the alpha always lies in
`[0,1]`. -/
theorem C10_unknown_character_reattribution :
    ∀ (characters1 characters2 : Characters) (t : TagB)
      (following_text : List Char) (position1 position2 : Nat),
      List.lookup t.character characters1 = none →
      (List.lookup t.character characters2).isSome →
      following_text ≠ [] →
      (tag_segment characters1 t following_text position1).character = "narrator"
      ∧ (tag_segment characters1 t following_text position1).is_dialogue = false
      ∧ (tag_segment characters1 t following_text position1).text =
          (tag_segment characters2 t following_text position2).text
      ∧ (tag_segment characters1 t following_text position1).emotion = t.emotion
      ∧ (tag_segment characters2 t following_text position2).emotion = t.emotion
      ∧ (tag_segment characters1 t following_text position1).alpha =
          (tag_segment characters2 t following_text position2).alpha
      ∧ (tag_segment characters1 t following_text position1).emo_text =
          (tag_segment characters2 t following_text position2).emo_text
      ∧ 0 ≤ (tag_segment characters1 t following_text position1).alpha
      ∧ (tag_segment characters1 t following_text position1).alpha ≤ 1
      ∧ (∀ a, (extract_character_content t).2.2 = Sum.inl a →
          (tag_segment characters1 t following_text position1).alpha = a)
      ∧ (∀ d, (extract_character_content t).2.2 = Sum.inr d →
          (tag_segment characters1 t following_text position1).alpha = mkRat 8 10
          ∧ (tag_segment characters1 t following_text position1).emo_text =
              some (t.emotion ++ ": " ++ d)) := by
  intro characters1 characters2 t following_text position1 position2 h1 h2 hft
  have hc1 : ¬ ((List.lookup t.character characters1).isSome ∧ following_text ≠ []) := by
    rw [h1]
    simp
  have hc2 : (List.lookup t.character characters2).isSome ∧ following_text ≠ [] :=
    ⟨h2, hft⟩
  cases hv : parseFloat? t.value.data with
  | some intensity =>
    have ex : (extract_character_content t).2.2 = Sum.inl (clamp01 intensity) := by
      simp [extract_character_content, hv]
    have e1 : tag_segment characters1 t following_text position1 =
        ⟨String.mk following_text, "narrator", t.emotion, clamp01 intensity,
          false, position1, none⟩ := by
      simp only [tag_segment, extract_character_content, hv, if_neg hc1]
    have e2 : tag_segment characters2 t following_text position2 =
        ⟨String.mk following_text, t.character, t.emotion, clamp01 intensity,
          true, position2, none⟩ := by
      simp only [tag_segment, extract_character_content, hv, if_pos hc2]
    rw [e1, e2, ex]
    refine ⟨rfl, rfl, rfl, rfl, rfl, rfl, rfl, clamp01_nonneg intensity,
      clamp01_le_one intensity, ?_, ?_⟩
    · intro a ha
      injection ha
    · intro d hd
      exact Sum.noConfusion hd
  | none =>
    have ex : (extract_character_content t).2.2 = Sum.inr t.value := by
      simp [extract_character_content, hv]
    have e1 : tag_segment characters1 t following_text position1 =
        ⟨String.mk following_text, "narrator", t.emotion, mkRat 8 10,
          false, position1, some (t.emotion ++ ": " ++ t.value)⟩ := by
      simp only [tag_segment, extract_character_content, hv, if_neg hc1]
    have e2 : tag_segment characters2 t following_text position2 =
        ⟨String.mk following_text, t.character, t.emotion, mkRat 8 10,
          true, position2, some (t.emotion ++ ": " ++ t.value)⟩ := by
      simp only [tag_segment, extract_character_content, hv, if_pos hc2]
    rw [e1, e2, ex]
    refine ⟨rfl, rfl, rfl, rfl, rfl, rfl, rfl,
      (by decide : (0 : ℚ) ≤ mkRat 8 10), (by decide : mkRat 8 10 ≤ (1 : ℚ)), ?_, ?_⟩
    · intro a ha
      exact Sum.noConfusion ha
    · intro d hd
      injection hd with hd
      rw [hd]
      exact ⟨rfl, rfl⟩

/-- Claim C10 witness: the `sarah` tag with a descriptive value and the text
`Hi`, resolved against an empty registry versus the registry that contains
`sarah`. -/
theorem C10_witness :
    (tag_segment [] ⟨"sarah", "excited", "very enthusiastic"⟩ "Hi".data 0).character =
      "narrator"
    ∧ (tag_segment [] ⟨"sarah", "excited", "very enthusiastic"⟩ "Hi".data 0).is_dialogue =
      false :=
  ⟨(C10_unknown_character_reattribution [] sarah_registry
      ⟨"sarah", "excited", "very enthusiastic"⟩ "Hi".data 0 0
      (by decide) (by decide) (by decide)).1,
   (C10_unknown_character_reattribution [] sarah_registry
      ⟨"sarah", "excited", "very enthusiastic"⟩ "Hi".data 0 0
      (by decide) (by decide) (by decide)).2.1⟩

end IndexTTS
